import Mathlib

/-!
Shallow embedding of `src/prompt.rs` from prompt-native/prompt-lib-rust.

Modelling conventions:
  * `serde_yaml::Value` is embedded as the inductive `Value` below.  YAML
    numbers in serde_yaml are backed by `i64`, `u64` or `f64`; the model
    carries integer scalars as mathematical `Int` (`Value.vint`) and
    floating scalars as exact rationals (`Value.vfloat`), abstracting the
    binary rounding of `f64`/`f32` (the numeric values in this repository's
    documents are all exactly representable).
  * A Rust panic (from `Option::unwrap` / `Result::unwrap`) is modelled as
    the `Except.error` branch of an `Except Panic _` result.  The Rust
    functions themselves have no error channel: every failure in this code
    is a panic.
  * `serde_yaml::from_str::<T>(text)` first parses the text to a YAML value
    and then deserializes `T` from it.  The textual YAML phase is abstracted
    as a value of type `Except DeError Value` (`.error` = the text is not
    valid YAML); all `from_str` calls inside `deserialize_prompt` receive
    the same raw text, hence the same abstracted parse outcome.
-/

namespace PromptLib

/-- Embedding of `serde_yaml::Value`: a YAML scalar, sequence or mapping. -/
inductive Value where
  | vnull : Value
  | vbool : Bool → Value
  | vint : Int → Value
  | vfloat : ℚ → Value
  | vstr : String → Value
  | vseq : List Value → Value
  | vmap : List (String × Value) → Value

/-- Embedding of `serde_yaml::Value::as_i64`.  serde_yaml numbers are backed
by `i64` or `u64`; `as_i64` returns the value only when it is an integer
representable as a signed 64-bit integer, and `None` otherwise (in
particular for `u64`-backed integers above `i64::MAX`, and for floats,
strings, booleans, nulls, sequences and mappings). -/
def Value.as_i64 : Value → Option Int
  | .vint i => if -(2 ^ 63) ≤ i ∧ i < 2 ^ 63 then some i else none
  | _ => none

/-- Embedding of `serde_yaml::Value::as_f64`: any integer- or float-valued
number yields its numeric value (here kept as an exact rational); every
other node yields `None`. -/
def Value.as_f64 : Value → Option ℚ
  | .vint i => some (i : ℚ)
  | .vfloat q => some q
  | _ => none

/-- Embedding of `serde_yaml::Value::as_str`. -/
def Value.as_str : Value → Option String
  | .vstr s => some s
  | _ => none

/-- Embedding of `serde_yaml::Value::as_bool`. -/
def Value.as_bool : Value → Option Bool
  | .vbool b => some b
  | _ => none

/-- A Rust panic, carrying the panic message. -/
structure Panic where
  msg : String
deriving DecidableEq

instance {ε α : Type} [DecidableEq ε] [DecidableEq α] : DecidableEq (Except ε α) :=
  fun x y =>
    match x, y with
    | .ok a, .ok b =>
        if h : a = b then .isTrue (by rw [h]) else .isFalse (by simp [h])
    | .error e, .error f =>
        if h : e = f then .isTrue (by rw [h]) else .isFalse (by simp [h])
    | .ok _, .error _ => .isFalse (by simp)
    | .error _, .ok _ => .isFalse (by simp)

/-- Message of `Option::unwrap` on `None`. -/
def optionUnwrapMsg : String := "called Option::unwrap() on a None value"

/-- Model of `Option::unwrap`: panics on `None`. -/
def unwrapOption : Option α → Except Panic α
  | some a => .ok a
  | none => .error ⟨optionUnwrapMsg⟩

/-- Model of Rust `Option::map` whose closure may panic (as in
`find_parameter(..).map(|p| p.as_i64().unwrap() as i32)`): an absent value
maps to an absent result without running the closure. -/
def mapPanic (o : Option α) (f : α → Except Panic β) : Except Panic (Option β) :=
  match o with
  | none => .ok none
  | some a => (f a).map some

/-- Rust `as i32` applied to an `i64` value: truncation to the low 32 bits,
reinterpreted as a signed 32-bit integer. -/
def i64_as_i32 (i : Int) : Int :=
  (i + 2 ^ 31) % 2 ^ 32 - 2 ^ 31

/-- `struct PromptType` (the minimal document shape holding only the
renamed `type` field). -/
structure PromptType where
  prompt_type : String

/-- `struct CompletionExampleColumn`. -/
structure CompletionExampleColumn where
  name : String
  values : List String
  test : Option String

/-- `struct ChatExample`. -/
structure ChatExample where
  input : String
  output : Option String

/-- `struct Message`. -/
structure Message where
  input : String
  output : Option String

/-- `struct Parameter`. -/
structure Parameter where
  name : String
  value : Value

/-- `struct Completion`. -/
structure Completion where
  prompt_type : String
  vendor : String
  model : String
  prompt : String
  parameters : Option (List Parameter)
  examples : Option (List CompletionExampleColumn)

/-- `struct Chat`. -/
structure Chat where
  prompt_type : String
  vendor : String
  model : String
  parameters : Option (List Parameter)
  examples : Option (List ChatExample)
  context : Option String
  messages : Option (List Message)

/-- `fn find_parameter`: first parameter (in list order) whose name equals
`name` exactly, if any; `None` when the parameter list is absent. -/
def find_parameter (parameters : Option (List Parameter)) (name : String) :
    Option Value :=
  match parameters with
  | some real_parameters =>
      (real_parameters.find? (fun p => p.name == name)).map (fun x => x.value)
  | none => none

/-- `Completion::example_count`: running maximum of the lengths of the
example columns' value lists, starting from 0. -/
def Completion.example_count (c : Completion) : Nat :=
  match c.examples with
  | some columns =>
      columns.foldl
        (fun max_length column =>
          if column.values.length > max_length then column.values.length
          else max_length)
        0
  | none => 0

/-- Model of `format!("\x7b\x7d: \x7b\x7d\n", name, value)`. -/
def formatLine (name value : String) : String :=
  name ++ ": " ++ value ++ "\n"

/-- `Completion::final_prompt`: the base prompt, a blank line, then (when
the `examples` field is present) one block per example row followed by the
test row.  Each `push_str` of the Rust loop is one fold step. -/
def Completion.final_prompt (c : Completion) : String :=
  let prompt := c.prompt ++ "\n\n"
  match c.examples with
  | some columns =>
      let prompt :=
        (List.range c.example_count).foldl
          (fun prompt i =>
            (columns.foldl
              (fun prompt column =>
                prompt ++ formatLine column.name ((column.values.get? i).getD ""))
              prompt) ++ "\n")
          prompt
      columns.foldl
        (fun prompt column =>
          prompt ++ formatLine column.name (column.test.getD ""))
        prompt
  | none => prompt

/-- `Completion::find_parameter_as_i32`:
`find_parameter(..).map(|p| p.as_i64().unwrap() as i32)`. -/
def Completion.find_parameter_as_i32 (c : Completion) (name : String) :
    Except Panic (Option Int) :=
  mapPanic (find_parameter c.parameters name)
    (fun p => (unwrapOption p.as_i64).map i64_as_i32)

/-- `Completion::find_parameter_as_f32`:
`find_parameter(..).map(|p| p.as_f64().unwrap() as f32)` (the lossless
`f64` to `f32` narrowing of the repository's small values is the identity
on the rational model). -/
def Completion.find_parameter_as_f32 (c : Completion) (name : String) :
    Except Panic (Option ℚ) :=
  mapPanic (find_parameter c.parameters name)
    (fun p => (unwrapOption p.as_f64).map id)

/-- `Completion::find_parameter_as_str`. -/
def Completion.find_parameter_as_str (c : Completion) (name : String) :
    Except Panic (Option String) :=
  mapPanic (find_parameter c.parameters name)
    (fun p => (unwrapOption p.as_str).map id)

/-- `Completion::find_parameter_as_bool`:
`find_parameter(..).map(|p| p.as_bool().unwrap())`. -/
def Completion.find_parameter_as_bool (c : Completion) (name : String) :
    Except Panic (Option Bool) :=
  mapPanic (find_parameter c.parameters name)
    (fun p => unwrapOption p.as_bool)

/-- `Chat::find_parameter_as_i32`. -/
def Chat.find_parameter_as_i32 (c : Chat) (name : String) :
    Except Panic (Option Int) :=
  mapPanic (find_parameter c.parameters name)
    (fun p => (unwrapOption p.as_i64).map i64_as_i32)

/-- `Chat::find_parameter_as_f32`. -/
def Chat.find_parameter_as_f32 (c : Chat) (name : String) :
    Except Panic (Option ℚ) :=
  mapPanic (find_parameter c.parameters name)
    (fun p => (unwrapOption p.as_f64).map id)

/-- `Chat::find_parameter_as_str`. -/
def Chat.find_parameter_as_str (c : Chat) (name : String) :
    Except Panic (Option String) :=
  mapPanic (find_parameter c.parameters name)
    (fun p => (unwrapOption p.as_str).map id)

/-- `Chat::find_parameter_as_bool`. -/
def Chat.find_parameter_as_bool (c : Chat) (name : String) :
    Except Panic (Option Bool) :=
  mapPanic (find_parameter c.parameters name)
    (fun p => unwrapOption p.as_bool)

/-- `enum Prompt`. -/
inductive Prompt where
  | Completion : Completion → Prompt
  | Chat : Chat → Prompt
  | Unknown : Prompt

/-! Serde-derived deserialization of the five document shapes, modelled on
`serde_yaml`'s behaviour: a struct deserializes only from a mapping, a
missing required field or a field of the wrong kind is an error, unknown
keys are ignored, and an `Option` field is `None` when the key is missing
or null. -/

/-- A serde_yaml deserialization error (message only). -/
abbrev DeError := String

/-- Key lookup in a YAML mapping (first occurrence); `none` on non-maps. -/
def Value.getKey (v : Value) (k : String) : Option Value :=
  match v with
  | .vmap kvs => (kvs.find? (fun kv => kv.fst == k)).map (fun kv => kv.snd)
  | _ => none

/-- Required field access: error when the key is absent. -/
def reqField (y : Value) (k : String) : Except DeError Value :=
  match y.getKey k with
  | some v => .ok v
  | none => .error ("missing field " ++ k)

/-- Deserialize a `String` (only from a string scalar). -/
def deString : Value → Except DeError String
  | .vstr s => .ok s
  | _ => .error "invalid type: expected a string"

/-- Deserialize an `Option<T>` field from its (possibly absent) value:
absent or null yields `None`. -/
def deOpt (de : Value → Except DeError α) : Option Value → Except DeError (Option α)
  | none => .ok none
  | some .vnull => .ok none
  | some v => (de v).map some

/-- Deserialize a `Vec<T>` (only from a sequence). -/
def deList (de : Value → Except DeError α) : Value → Except DeError (List α)
  | .vseq items => items.mapM de
  | _ => .error "invalid type: expected a sequence"

/-- Derived `Deserialize` for `PromptType`: read the renamed `type` field
as a string; every other key is ignored. -/
def PromptType.deserialize (y : Value) : Except DeError PromptType :=
  match y with
  | .vmap _ => do
      let t ← deString (← reqField y "type")
      .ok ⟨t⟩
  | _ => .error "invalid type: expected a map"

/-- Derived `Deserialize` for `Parameter`. -/
def Parameter.deserialize (y : Value) : Except DeError Parameter :=
  match y with
  | .vmap _ => do
      let n ← deString (← reqField y "name")
      let v ← reqField y "value"
      .ok ⟨n, v⟩
  | _ => .error "invalid type: expected a map"

/-- Derived `Deserialize` for `CompletionExampleColumn`. -/
def CompletionExampleColumn.deserialize (y : Value) :
    Except DeError CompletionExampleColumn :=
  match y with
  | .vmap _ => do
      let n ← deString (← reqField y "name")
      let vs ← deList deString (← reqField y "values")
      let t ← deOpt deString (y.getKey "test")
      .ok ⟨n, vs, t⟩
  | _ => .error "invalid type: expected a map"

/-- Derived `Deserialize` for `ChatExample`. -/
def ChatExample.deserialize (y : Value) : Except DeError ChatExample :=
  match y with
  | .vmap _ => do
      let i ← deString (← reqField y "input")
      let o ← deOpt deString (y.getKey "output")
      .ok ⟨i, o⟩
  | _ => .error "invalid type: expected a map"

/-- Derived `Deserialize` for `Message`. -/
def Message.deserialize (y : Value) : Except DeError Message :=
  match y with
  | .vmap _ => do
      let i ← deString (← reqField y "input")
      let o ← deOpt deString (y.getKey "output")
      .ok ⟨i, o⟩
  | _ => .error "invalid type: expected a map"

/-- Derived `Deserialize` for `Completion`: `type`, `vendor`, `model` and
`prompt` are required strings; `parameters` and `examples` are optional
lists. -/
def Completion.deserialize (y : Value) : Except DeError Completion :=
  match y with
  | .vmap _ => do
      let t ← deString (← reqField y "type")
      let vendor ← deString (← reqField y "vendor")
      let model ← deString (← reqField y "model")
      let prompt ← deString (← reqField y "prompt")
      let ps ← deOpt (deList Parameter.deserialize) (y.getKey "parameters")
      let ex ← deOpt (deList CompletionExampleColumn.deserialize) (y.getKey "examples")
      .ok ⟨t, vendor, model, prompt, ps, ex⟩
  | _ => .error "invalid type: expected a map"

/-- Derived `Deserialize` for `Chat`: `type`, `vendor` and `model` are
required strings; `parameters`, `examples`, `context` and `messages` are
optional. -/
def Chat.deserialize (y : Value) : Except DeError Chat :=
  match y with
  | .vmap _ => do
      let t ← deString (← reqField y "type")
      let vendor ← deString (← reqField y "vendor")
      let model ← deString (← reqField y "model")
      let ps ← deOpt (deList Parameter.deserialize) (y.getKey "parameters")
      let ex ← deOpt (deList ChatExample.deserialize) (y.getKey "examples")
      let ctx ← deOpt deString (y.getKey "context")
      let ms ← deOpt (deList Message.deserialize) (y.getKey "messages")
      .ok ⟨t, vendor, model, ps, ex, ctx, ms⟩
  | _ => .error "invalid type: expected a map"

/-- Model of `serde_yaml::from_str::<T>`: the abstracted textual parse
outcome, then deserialization of `T` from the parsed value. -/
def fromStrAs (de : Value → Except DeError α) (doc : Except DeError Value) :
    Except DeError α :=
  match doc with
  | .error e => .error e
  | .ok y => de y

/-- Model of `Result::unwrap`: panics on `Err`. -/
def unwrapResult : Except DeError α → Except Panic α
  | .ok a => .ok a
  | .error e => .error ⟨"called Result::unwrap() on an Err value: " ++ e⟩

/-- `fn deserialize_prompt`: unwrap the minimal `PromptType` parse, branch
on the discriminator string, unwrap the full parse of the selected variant;
any other discriminator yields `Prompt::Unknown`. -/
def deserialize_prompt (doc : Except DeError Value) : Except Panic Prompt := do
  let prompt_type ← unwrapResult (fromStrAs PromptType.deserialize doc)
  match prompt_type.prompt_type with
  | "completion" => do
      let completion ← unwrapResult (fromStrAs Completion.deserialize doc)
      return Prompt.Completion completion
  | "chat" => do
      let chat ← unwrapResult (fromStrAs Chat.deserialize doc)
      return Prompt.Chat chat
  | _ => return Prompt.Unknown

/-! Specification-side definitions (transcribed from the spec's words, to be
compared with the source-derived functions above), and concrete documents
and templates used to instantiate the theorems.  The concrete template and
document mirror the repository's own test fixture. -/

/-- Concatenation of the rendered pieces of a list (spec-side helper). -/
def strConcatMap (f : α → String) : List α → String
  | [] => ""
  | x :: xs => f x ++ strConcatMap f xs

/-- Rendering algorithm as the spec words it: base prompt, blank line, one
block per row index (each column's line in declared order, then a blank
line), then the test row with no extra blank line. -/
def finalPromptSpec (c : Completion) : String :=
  let columns := c.examples.getD []
  c.prompt ++ "\n\n"
    ++ strConcatMap
        (fun i =>
          strConcatMap
            (fun column => formatLine column.name ((column.values.get? i).getD ""))
            columns ++ "\n")
        (List.range c.example_count)
    ++ strConcatMap (fun column => formatLine column.name (column.test.getD "")) columns

/-- Example columns of the repository's test fixture. -/
def sampleColumns : List CompletionExampleColumn :=
  [⟨"input", ["a", "b"], some "c"⟩, ⟨"output", ["x", "y"], none⟩]

/-- Parameters of the repository's test fixture (`0.4` is the rational
`2/5`). -/
def sampleParameters : List Parameter :=
  [⟨"maxOutputTokens", .vint 256⟩, ⟨"temperature", .vfloat (2 / 5)⟩]

/-- The completion template of the repository's test fixture. -/
def sampleCompletion : Completion :=
  ⟨"completion", "google", "text-bison", "Write a hello world in java",
    some sampleParameters, some sampleColumns⟩

/-- The parsed YAML document of the repository's test fixture. -/
def sampleDoc : Value :=
  .vmap
    [("type", .vstr "completion"),
     ("vendor", .vstr "google"),
     ("model", .vstr "text-bison"),
     ("prompt", .vstr "Write a hello world in java"),
     ("parameters",
       .vseq
         [.vmap [("name", .vstr "maxOutputTokens"), ("value", .vint 256)],
          .vmap [("name", .vstr "temperature"), ("value", .vfloat (2 / 5))]]),
     ("examples",
       .vseq
         [.vmap
            [("name", .vstr "input"),
             ("values", .vseq [.vstr "a", .vstr "b"]),
             ("test", .vstr "c")],
          .vmap
            [("name", .vstr "output"),
             ("values", .vseq [.vstr "x", .vstr "y"])]])]

/-- A completion with no `examples` field at all. -/
def noExamplesCompletion : Completion :=
  ⟨"completion", "google", "text-bison", "hello", none, none⟩

/-- A completion whose single example column has an empty value list but a
test value. -/
def emptyValuesCompletion : Completion :=
  ⟨"completion", "google", "text-bison", "ask", none,
    some [⟨"input", [], some "c"⟩]⟩

/-- A completion whose parameter holds the integer `2 ^ 63`, which a YAML
document represents as a `u64`-backed number above `i64::MAX`. -/
def hugeParamCompletion : Completion :=
  ⟨"completion", "v", "m", "p", some [⟨"n", .vint (2 ^ 63)⟩], none⟩

/-- A completion whose parameter holds `2 ^ 31 = 2147483648`, in `i64`
range but out of `i32` range. -/
def wrapParamCompletion : Completion :=
  ⟨"completion", "v", "m", "p", some [⟨"n", .vint 2147483648⟩], none⟩

/-- A document whose discriminator is neither `completion` nor `chat` and
which carries further keys. -/
def unknownTypeDoc : Value :=
  .vmap [("type", .vstr "image"), ("resolution", .vint 512)]

/-! Helper lemmas. -/

lemma foldl_append_str (f : α → String) (l : List α) (s : String) :
    l.foldl (fun acc x => acc ++ f x) s = s ++ strConcatMap f l := by
  induction l generalizing s with
  | nil => simp [strConcatMap]
  | cons x xs ih => simp [strConcatMap, ih, String.append_assoc]

lemma foldl_rows (g : Nat → α → String) (columns : List α) (l : List Nat)
    (s : String) :
    l.foldl
      (fun acc i => (columns.foldl (fun a col => a ++ g i col) acc) ++ "\n") s
      = s ++ strConcatMap (fun i => strConcatMap (g i) columns ++ "\n") l := by
  induction l generalizing s with
  | nil => simp [strConcatMap]
  | cons i is ih =>
      rw [List.foldl_cons, ih, foldl_append_str]
      simp [strConcatMap, String.append_assoc]

lemma if_gt_eq_max (m x : Nat) : (if x > m then x else m) = max m x := by
  rw [Nat.max_def]
  split_ifs <;> omega

lemma foldl_max_eq (l : List Nat) (a : Nat) :
    l.foldl (fun m x => if x > m then x else m) a = max a (l.foldr max 0) := by
  induction l generalizing a with
  | nil => simp
  | cons x xs ih =>
      rw [List.foldl_cons, ih, if_gt_eq_max, List.foldr_cons]
      exact Nat.max_assoc a x _

lemma foldr_max_of_all_zero (l : List Nat) (h : ∀ x ∈ l, x = 0) :
    l.foldr max 0 = 0 := by
  induction l with
  | nil => rfl
  | cons x xs ih =>
      simp only [List.foldr_cons]
      rw [h x (by simp), ih (fun y hy => h y (by simp [hy]))]
      rfl

lemma example_count_eq_foldr_max (c : Completion) :
    c.example_count
      = ((c.examples.getD []).map (fun col => col.values.length)).foldr max 0 := by
  unfold Completion.example_count
  cases h : c.examples with
  | none => simp
  | some columns =>
      simp only [Option.getD_some]
      rw [← List.foldl_map (fun col : CompletionExampleColumn => col.values.length)
        (fun m x => if x > m then x else m), foldl_max_eq]
      simp

lemma example_count_of_all_nil (c : Completion) (cols : List CompletionExampleColumn)
    (h : c.examples = some cols) (hv : ∀ col ∈ cols, col.values = []) :
    c.example_count = 0 := by
  rw [example_count_eq_foldr_max, h]
  apply foldr_max_of_all_zero
  intro x hx
  simp only [Option.getD_some, List.mem_map] at hx
  obtain ⟨col, hcol, rfl⟩ := hx
  rw [hv col hcol]
  rfl

/-- C1: `final_prompt` returns the base prompt, a blank line, then for each
row index one line per example column in declared order followed by a blank
line, and finally one test row with no extra blank line after it. -/
theorem final_prompt_renders_rows_then_test_row (c : Completion) :
    c.final_prompt = finalPromptSpec c := by
  unfold Completion.final_prompt finalPromptSpec
  cases h : c.examples with
  | none =>
      simp [Completion.example_count, h, strConcatMap, String.append_empty]
  | some columns =>
      simp only [h, Option.getD_some]
      rw [foldl_rows
        (fun i (column : CompletionExampleColumn) =>
          formatLine column.name ((column.values.get? i).getD ""))]
      rw [foldl_append_str
        (fun column : CompletionExampleColumn =>
          formatLine column.name (column.test.getD ""))]

/-- C2: `example_count` is the maximum length of the value lists over the
example columns, and is 0 when the `examples` field is absent, the column
list is empty, or every column's value list is empty. -/
theorem example_count_is_max_column_length (c : Completion) :
    c.example_count
        = ((c.examples.getD []).map (fun col => col.values.length)).foldr max 0
      ∧ (c.examples = none → c.example_count = 0)
      ∧ (c.examples = some [] → c.example_count = 0)
      ∧ (∀ cols, c.examples = some cols → (∀ col ∈ cols, col.values = []) →
          c.example_count = 0) := by
  refine ⟨example_count_eq_foldr_max c, ?_, ?_, ?_⟩
  · intro h
    rw [example_count_eq_foldr_max, h]
    rfl
  · intro h
    rw [example_count_eq_foldr_max, h]
    rfl
  · intro cols h hv
    exact example_count_of_all_nil c cols h hv

/-- Witness for C2 at the repository's fixture and at a template with no
`examples` field. -/
theorem example_count_is_max_column_length_witness :
    noExamplesCompletion.example_count = 0 :=
  (example_count_is_max_column_length noExamplesCompletion).2.1 rfl

/-! Sanity theorems mirroring the repository's own test expectations. -/

theorem sample_example_count_matches_test : sampleCompletion.example_count = 2 := rfl

theorem sample_final_prompt_matches_test :
    sampleCompletion.final_prompt
      = "Write a hello world in java\n\ninput: a\noutput: x\n\ninput: b\noutput: y\n\ninput: c\noutput: \n" :=
  rfl

theorem sample_doc_deserializes :
    deserialize_prompt (.ok sampleDoc) = .ok (Prompt.Completion sampleCompletion) :=
  rfl

/-- C3: a document whose discriminator parses but is neither `completion`
nor `chat` deserializes to `Prompt.Unknown`, whatever else it contains. -/
theorem deserialize_prompt_unknown_discriminator (y : Value) (pt : PromptType)
    (h : PromptType.deserialize y = .ok pt)
    (hc : pt.prompt_type ≠ "completion") (hh : pt.prompt_type ≠ "chat") :
    deserialize_prompt (.ok y) = .ok Prompt.Unknown := by
  simp only [deserialize_prompt, fromStrAs, h, unwrapResult, Bind.bind, Except.bind]
  rfl

/-- Witness for C3: a document of type `image` with an extra key. -/
theorem deserialize_prompt_unknown_discriminator_witness :
    deserialize_prompt (.ok unknownTypeDoc) = .ok Prompt.Unknown :=
  deserialize_prompt_unknown_discriminator unknownTypeDoc ⟨"image"⟩ rfl
    (by decide) (by decide)

/-- C4 (evaluation at the failing input): requesting the integer-valued
parameter `maxOutputTokens` as boolean panics on `Option::unwrap` instead
of surfacing a recoverable TypeMismatch fault. -/
theorem find_parameter_as_bool_panics_on_int_value :
    sampleCompletion.find_parameter_as_bool "maxOutputTokens"
      = .error ⟨optionUnwrapMsg⟩ :=
  rfl

/-- C5 (evaluation at the failing inputs): on a document missing the `type`
discriminator, and on text that is not valid YAML, `deserialize_prompt`
panics on `Result::unwrap` instead of returning a recoverable
MalformedDocument error. -/
theorem deserialize_prompt_panics_without_discriminator :
    deserialize_prompt (.ok (Value.vmap []))
        = .error ⟨"called Result::unwrap() on an Err value: missing field type"⟩
      ∧ deserialize_prompt (.error "syntax error")
        = .error ⟨"called Result::unwrap() on an Err value: syntax error"⟩ :=
  ⟨rfl, rfl⟩

/-- C6 (evaluation at the failing inputs): a `completion` document missing
`vendor`, a `chat` document missing `model`, and a `completion` document
whose `prompt` is a number all make `deserialize_prompt` panic on
`Result::unwrap`; no SchemaMismatch value naming the variant is returned. -/
theorem deserialize_prompt_panics_on_schema_mismatch :
    deserialize_prompt (.ok (Value.vmap [("type", Value.vstr "completion")]))
        = .error ⟨"called Result::unwrap() on an Err value: missing field vendor"⟩
      ∧ deserialize_prompt
          (.ok (Value.vmap [("type", Value.vstr "chat"), ("vendor", Value.vstr "g")]))
        = .error ⟨"called Result::unwrap() on an Err value: missing field model"⟩
      ∧ deserialize_prompt
          (.ok (Value.vmap
            [("type", Value.vstr "completion"), ("vendor", Value.vstr "g"),
             ("model", Value.vstr "m"), ("prompt", Value.vint 5)]))
        = .error
            ⟨"called Result::unwrap() on an Err value: invalid type: expected a string"⟩ :=
  ⟨rfl, rfl, rfl⟩

/-- C7: parameter lookup returns the value of the first parameter in list
order whose name equals the query exactly, and `none` when no parameter
matches or the list is absent. -/
theorem find_parameter_first_exact_match :
    (∀ name, find_parameter none name = none)
      ∧ (∀ (ps : List Parameter) (name : String),
          (∀ p ∈ ps, p.name ≠ name) → find_parameter (some ps) name = none)
      ∧ (∀ (ps : List Parameter) (name : String) (v : Value),
          find_parameter (some ps) name = some v ↔
            ∃ pre p post, ps = pre ++ p :: post ∧ p.name = name ∧ p.value = v ∧
              ∀ q ∈ pre, q.name ≠ name) := by
  refine ⟨fun _ => rfl, ?_, ?_⟩
  · intro ps name h
    unfold find_parameter
    rw [Option.map_eq_none', List.find?_eq_none]
    intro p hp
    simpa using h p hp
  · intro ps name v
    unfold find_parameter
    constructor
    · intro h
      obtain ⟨p, hfind, hval⟩ := Option.map_eq_some'.1 h
      obtain ⟨hpred, pre, post, hps, hpre⟩ := List.find?_eq_some.1 hfind
      exact ⟨pre, p, post, hps, by simpa using hpred, hval,
        fun q hq => by simpa using hpre q hq⟩
    · rintro ⟨pre, p, post, rfl, hname, hval, hpre⟩
      exact Option.map_eq_some'.2
        ⟨p, List.find?_eq_some.2
          ⟨by simp [hname], pre, post, rfl, fun q hq => by simp [hpre q hq]⟩, hval⟩

/-- Witness for C7: looking up a name not present in the fixture's
parameter list yields `none`. -/
theorem find_parameter_first_exact_match_witness :
    find_parameter (some sampleParameters) "topK" = none :=
  find_parameter_first_exact_match.2.1 sampleParameters "topK" (by decide)

/-- C8: an integer-valued parameter satisfies the floating-point request
with its natural numeric value. -/
theorem find_parameter_as_f32_accepts_int (c : Completion) (name : String) (i : Int)
    (h : find_parameter c.parameters name = some (Value.vint i)) :
    c.find_parameter_as_f32 name = .ok (some (i : ℚ)) := by
  simp [Completion.find_parameter_as_f32, h, mapPanic, Value.as_f64,
    unwrapOption, Except.map]

/-- Witness for C8: `maxOutputTokens` (integer 256) requested as float. -/
theorem find_parameter_as_f32_accepts_int_witness :
    sampleCompletion.find_parameter_as_f32 "maxOutputTokens"
      = .ok (some ((256 : Int) : ℚ)) :=
  find_parameter_as_f32_accepts_int sampleCompletion "maxOutputTokens" 256 rfl

/-- C9 counterexample: for the integer `2 ^ 63`, which is out of `i32`
range, the accessor does not return the wrapped value: `as_i64` yields
`None` (the number is `u64`-backed) and the `unwrap` panics. -/
theorem find_parameter_as_i32_panics_above_i64 :
    hugeParamCompletion.find_parameter_as_i32 "n" = .error ⟨optionUnwrapMsg⟩
      ∧ ¬ hugeParamCompletion.find_parameter_as_i32 "n"
          = .ok (some (i64_as_i32 (2 ^ 63))) := by
  constructor
  · rfl
  · intro h
    rw [show hugeParamCompletion.find_parameter_as_i32 "n"
        = .error ⟨optionUnwrapMsg⟩ from rfl] at h
    exact Except.noConfusion h

/-- C9 as amended: for a first-matching parameter holding an integer in
signed 64-bit range but outside signed 32-bit range, both accessors return
the value truncated to 32 bits per Rust `as i32` (reduction modulo `2 ^ 32`
reinterpreted as signed), without failing; `i64_as_i32` is exactly that
truncation. -/
theorem find_parameter_as_i32_wraps_in_i64_range :
    (∀ (c : Completion) (name : String) (v : Int),
        find_parameter c.parameters name = some (Value.vint v) →
        -(2 ^ 63) ≤ v → v < 2 ^ 63 → (v < -(2 ^ 31) ∨ 2 ^ 31 ≤ v) →
        c.find_parameter_as_i32 name = .ok (some (i64_as_i32 v)))
      ∧ (∀ (c : Chat) (name : String) (v : Int),
          find_parameter c.parameters name = some (Value.vint v) →
          -(2 ^ 63) ≤ v → v < 2 ^ 63 → (v < -(2 ^ 31) ∨ 2 ^ 31 ≤ v) →
          c.find_parameter_as_i32 name = .ok (some (i64_as_i32 v)))
      ∧ (∀ v : Int, i64_as_i32 v % 2 ^ 32 = v % 2 ^ 32
          ∧ -(2 ^ 31) ≤ i64_as_i32 v ∧ i64_as_i32 v < 2 ^ 31) := by
  refine ⟨?_, ?_, ?_⟩
  · intro c name v h h1 h2 _
    have hcond : -(2 ^ 63) ≤ v ∧ v < 2 ^ 63 := ⟨h1, h2⟩
    unfold Completion.find_parameter_as_i32
    rw [h]
    simp only [mapPanic, Value.as_i64, if_pos hcond, unwrapOption, Except.map]
  · intro c name v h h1 h2 _
    have hcond : -(2 ^ 63) ≤ v ∧ v < 2 ^ 63 := ⟨h1, h2⟩
    unfold Chat.find_parameter_as_i32
    rw [h]
    simp only [mapPanic, Value.as_i64, if_pos hcond, unwrapOption, Except.map]
  · intro v
    unfold i64_as_i32
    have h32 : (2 : Int) ^ 32 = 4294967296 := by norm_num
    have h31 : (2 : Int) ^ 31 = 2147483648 := by norm_num
    rw [h32, h31]
    omega

/-- Witness for the amended C9: `2147483648 = 2 ^ 31` wraps to
`-2147483648`. -/
theorem find_parameter_as_i32_wraps_in_i64_range_witness :
    wrapParamCompletion.find_parameter_as_i32 "n" = .ok (some (-2147483648)) :=
  find_parameter_as_i32_wraps_in_i64_range.1 wrapParamCompletion "n" 2147483648
    rfl (by decide) (by decide) (by decide)

/-- C10: with a present, non-empty column list whose value lists are all
empty, `final_prompt` still renders the test row; with the `examples` field
absent or an empty column list, the output is exactly the base prompt and
the blank-line separator. -/
theorem final_prompt_empty_examples_cases :
    (∀ (c : Completion) (cols : List CompletionExampleColumn),
        c.examples = some cols → 0 < cols.length →
        (∀ col ∈ cols, col.values = []) →
        c.final_prompt = c.prompt ++ "\n\n"
          ++ strConcatMap (fun col => formatLine col.name (col.test.getD "")) cols)
      ∧ (∀ c : Completion, c.examples = none ∨ c.examples = some [] →
          c.final_prompt = c.prompt ++ "\n\n") := by
  constructor
  · intro c cols h _ hv
    have hcount : c.example_count = 0 := example_count_of_all_nil c cols h hv
    unfold Completion.final_prompt
    rw [h]
    simp only [hcount, List.range_zero, List.foldl_nil]
    rw [foldl_append_str
      (fun column : CompletionExampleColumn =>
        formatLine column.name (column.test.getD ""))]
  · rintro c (h | h)
    · unfold Completion.final_prompt
      rw [h]
    · have hcount : c.example_count = 0 :=
        example_count_of_all_nil c [] h (by simp)
      unfold Completion.final_prompt
      rw [h]
      simp [hcount]

/-- Witness for C10: one column with no values and test value `c` renders
only the separator and the test row. -/
theorem final_prompt_empty_examples_cases_witness :
    emptyValuesCompletion.final_prompt
      = emptyValuesCompletion.prompt ++ "\n\n"
        ++ strConcatMap
            (fun col : CompletionExampleColumn => formatLine col.name (col.test.getD ""))
            [⟨"input", [], some "c"⟩] :=
  final_prompt_empty_examples_cases.1 emptyValuesCompletion
    [⟨"input", [], some "c"⟩] rfl (by decide) (by decide)

end PromptLib
